import Mathlib

/-!
Verification of the hybrid question-resolution pipeline of the stock_backend
repository.

The development shallowly embeds the relevant Python sources:
  * services/semantic_mapping_service.py (field catalog, intent classifier,
    parameter extractor, template synthesizer, response renderer),
  * ai/llm_service.py (generative-output sanitization),
  * services/enhanced_query_processor.py (resolution orchestrator).

Question and query text is modelled as `List Char`.  Each regular expression
used by the source is embedded as an explicit leftmost-match scanning
function whose semantics coincide with Python `re.search` on the pattern in
question (ASCII character classes; the source only ever feeds ASCII text).
External collaborators (database execution, LLM generation/explanation) are
modelled as oracle functions carried in an `Env` structure.
-/

/-- Convert a string literal to the character-list text model. -/
def strToChars (s : String) : List Char := s.data

/-- Python regex whitespace class (ASCII part), as used by the patterns. -/
def isPySpace (c : Char) : Bool :=
  c = ' ' || c = '\t' || c = '\n' || c = '\r' || c = '\x0b' || c = '\x0c'

/-- Lower-casing of text, modelling Python str.lower on ASCII input. -/
def charsLower (s : List Char) : List Char := s.map Char.toLower

/-- Upper-casing of text, modelling Python str.upper on ASCII input. -/
def charsUpper (s : List Char) : List Char := s.map Char.toUpper

/-- Decimal rendering of a natural number as text. -/
def natChars (n : Nat) : List Char := (Nat.repr n).data

/-- Parse a run of decimal digits, modelling Python int() on a digit string. -/
def charsToNat (ds : List Char) : Nat :=
  ds.foldl (fun n c => n * 10 + (c.toNat - 48)) 0

/-- Substring containment, modelling the Python `in` operator on strings. -/
def containsSub : List Char → List Char → Bool
  | _, [] => true
  | [], _ :: _ => false
  | c :: s, p :: ps => (p :: ps).isPrefixOf (c :: s) || containsSub s (p :: ps)

/-- Fuel-driven worker for `replaceAll`; the fuel only has to dominate the
number of scan steps, which is at most the length of the text. -/
def replaceAllGo (pat rep : List Char) : Nat → List Char → List Char
  | _, [] => []
  | 0, l => l
  | fuel + 1, c :: s =>
    if !pat.isEmpty && pat.isPrefixOf (c :: s) then
      rep ++ replaceAllGo pat rep fuel ((c :: s).drop pat.length)
    else
      c :: replaceAllGo pat rep fuel s

/-- Replace every (left-to-right, non-overlapping) occurrence of a non-empty
pattern, modelling Python str.replace.  (The source never calls replace with
an empty pattern; for an empty pattern this returns the input unchanged.) -/
def replaceAll (pat rep s : List Char) : List Char :=
  replaceAllGo pat rep s.length s

/-- Strip leading and trailing whitespace, modelling Python str.strip(). -/
def pyStrip (s : List Char) : List Char :=
  ((s.dropWhile isPySpace).reverse.dropWhile isPySpace).reverse

/-- First-match association-list lookup, modelling Python dict lookup for the
insertion-ordered dictionaries built by the source. -/
def lookupAssoc {α : Type} : List (List Char × α) → List Char → Option α
  | [], _ => none
  | (k, a) :: t, v => if k = v then some a else lookupAssoc t v

/-!
Parameter Extractor — semantic_mapping_service.extract_symbol_from_question
(lines 247-261) and the inline day-count extraction of generate_contextual_sql
(lines 294-298).
-/

/-- Case-insensitive literal match at the head of the text; returns the rest.
Models matching a literal regex component under re.IGNORECASE. -/
def dropLitCI : List Char → List Char → Option (List Char)
  | [], s => some s
  | _ :: _, [] => none
  | k :: ks, c :: s => if c.toLower = k.toLower then dropLitCI ks s else none

/-- Attempt of the pattern `kw\s+(\d+)` anchored at the head of the text,
returning the captured digit run.  The whitespace run and the digit run are
taken greedily; since the whitespace and digit classes are disjoint, this
coincides with Python backtracking semantics. -/
def matchKwAt (kw s : List Char) : Option (List Char) :=
  match dropLitCI kw s with
  | none => none
  | some r =>
    match r with
    | [] => none
    | c :: _ =>
      if isPySpace c then
        let ds := (r.dropWhile isPySpace).takeWhile Char.isDigit
        if ds.isEmpty then none else some ds
      else none

/-- Leftmost search for `kw\s+(\d+)` (re.IGNORECASE), modelling re.search of
the first two patterns of extract_symbol_from_question. -/
def searchKw (kw : List Char) (s : List Char) : Option (List Char) :=
  match s with
  | [] => matchKwAt kw []
  | _ :: t =>
    match matchKwAt kw s with
    | some d => some d
    | none => searchKw kw t

/-- Leftmost search for `(\d{6,})`: the first position at which a run of at
least six digits starts; the capture is the maximal run from there. -/
def searchDigitRun (s : List Char) : Option (List Char) :=
  match s with
  | [] => none
  | c :: t =>
    if c.isDigit then
      let run := c :: t.takeWhile Char.isDigit
      if 6 ≤ run.length then some run else searchDigitRun t
    else searchDigitRun t

/-- Embedding of extract_symbol_from_question: the three patterns
`symbol\s+(\d+)`, `stock\s+(\d+)`, `(\d{6,})` are tried in this order and the
capture of the first one that matches anywhere in the question is returned. -/
def extract_symbol_from_question (question : List Char) : Option (List Char) :=
  match searchKw (strToChars ("symbol")) question with
  | some d => some d
  | none =>
    match searchKw (strToChars ("stock")) question with
    | some d => some d
    | none => searchDigitRun question

/-- Leftmost search for `(\d+).*days?`, returning the captured digit run.
The pattern matches at a position iff a digit starts there and the literal
"day" occurs after the digit run with no intervening newline (`.` does not
match a newline); the capture is then the maximal digit run.  This coincides
with Python greedy/backtracking semantics because "day" contains neither a
digit nor a newline. -/
def searchDayCount (s : List Char) : Option (List Char) :=
  match s with
  | [] => none
  | c :: t =>
    if c.isDigit then
      if containsSub ((t.dropWhile Char.isDigit).takeWhile (fun x => x ≠ '\n'))
          (strToChars ("day")) then
        some (c :: t.takeWhile Char.isDigit)
      else searchDayCount t
    else searchDayCount t

/-- Day-count extraction inlined in generate_contextual_sql (lines 294-298):
search `(\d+).*days?` on the lower-cased question; parse the capture as an
integer, defaulting to 7 when there is no match. -/
def extractDayCount (question : List Char) : Nat :=
  match searchDayCount (charsLower question) with
  | some run => charsToNat run
  | none => 7

/-!
Intent Classifier — semantic_mapping_service._initialize_query_patterns
(lines 173-237) and classify_question_type (lines 263-278).

Every classifier pattern is of the form `T1.*T2.*...*Tn` where each `Ti` is a
literal word, `(\d+)`, or a literal followed by `\s+(\d+)`.  Such a pattern is
embedded as a list of tokens.  A `(\d+)` component is always followed by `.*`
or the end of the pattern, so for match existence it suffices to consume a
single digit and let the gap absorb the rest of the run.  The gap `.*` does
not cross a newline.
-/

/-- One component of a classifier pattern. -/
inductive Tok where
  | lit (w : List Char)
  | digits
  | litSpDigits (w : List Char)

/-- Consume one pattern component at the head of the text; for `digits` one
digit is consumed (existence-equivalent, see the section comment). -/
def consumeTok : Tok → List Char → Option (List Char)
  | Tok.lit w, s => if w.isPrefixOf s then some (s.drop w.length) else none
  | Tok.digits, s =>
    match s with
    | [] => none
    | c :: t => if c.isDigit then some t else none
  | Tok.litSpDigits w, s =>
    match dropLitCI w s with
    | none => none
    | some r =>
      match r with
      | [] => none
      | c :: _ =>
        if isPySpace c then
          match r.dropWhile isPySpace with
          | [] => none
          | d :: t => if d.isDigit then some t else none
        else none

/-- All suffixes of the text reachable through a `.*` gap: the text itself
and every suffix obtained by consuming characters other than a newline. -/
def linePositions (s : List Char) : List (List Char) :=
  match s with
  | [] => [[]]
  | c :: t => (c :: t) :: (if c = '\n' then [] else linePositions t)

/-- The token sequence, with `.*` gaps between consecutive tokens, matches
starting exactly at the head of the text. -/
def matchAt : List Tok → List Char → Bool
  | [], _ => true
  | t :: ts, s =>
    match consumeTok t s with
    | none => false
    | some r => (linePositions r).any (fun r2 => matchAt ts r2)

/-- Search the token-sequence pattern at every start position, modelling
re.search existence for the classifier patterns. -/
def searchToks (ts : List Tok) (s : List Char) : Bool :=
  match s with
  | [] => matchAt ts []
  | _ :: t => matchAt ts s || searchToks ts t

/-- Patterns of the trend_current intent, in declared order:
`trend.*symbol\s+(\d+)`, `trend.*stock\s+(\d+)`, `(\d+).*trend.*today`,
`current.*trend.*(\d+)`, `how.*(\d+).*trending`. -/
def trend_current_patterns : List (List Tok) :=
  [[Tok.lit (strToChars ("trend")), Tok.litSpDigits (strToChars ("symbol"))],
   [Tok.lit (strToChars ("trend")), Tok.litSpDigits (strToChars ("stock"))],
   [Tok.digits, Tok.lit (strToChars ("trend")), Tok.lit (strToChars ("today"))],
   [Tok.lit (strToChars ("current")), Tok.lit (strToChars ("trend")), Tok.digits],
   [Tok.lit (strToChars ("how")), Tok.digits, Tok.lit (strToChars ("trending"))]]

/-- Patterns of the trend_change intent, in declared order:
`last.*time.*(\d+).*moved.*uptrend.*downtrend`,
`last.*time.*(\d+).*changed.*long.*short`, `when.*(\d+).*moved.*up.*down`,
`trend.*change.*(\d+)`. -/
def trend_change_patterns : List (List Tok) :=
  [[Tok.lit (strToChars ("last")), Tok.lit (strToChars ("time")), Tok.digits,
    Tok.lit (strToChars ("moved")), Tok.lit (strToChars ("uptrend")),
    Tok.lit (strToChars ("downtrend"))],
   [Tok.lit (strToChars ("last")), Tok.lit (strToChars ("time")), Tok.digits,
    Tok.lit (strToChars ("changed")), Tok.lit (strToChars ("long")),
    Tok.lit (strToChars ("short"))],
   [Tok.lit (strToChars ("when")), Tok.digits, Tok.lit (strToChars ("moved")),
    Tok.lit (strToChars ("up")), Tok.lit (strToChars ("down"))],
   [Tok.lit (strToChars ("trend")), Tok.lit (strToChars ("change")), Tok.digits]]

/-- Patterns of the trend_history intent, in declared order:
`trend.*history.*(\d+)`, `(\d+).*trend.*last.*(\d+).*days`,
`how.*(\d+).*trending.*last`. -/
def trend_history_patterns : List (List Tok) :=
  [[Tok.lit (strToChars ("trend")), Tok.lit (strToChars ("history")), Tok.digits],
   [Tok.digits, Tok.lit (strToChars ("trend")), Tok.lit (strToChars ("last")),
    Tok.digits, Tok.lit (strToChars ("days"))],
   [Tok.lit (strToChars ("how")), Tok.digits, Tok.lit (strToChars ("trending")),
    Tok.lit (strToChars ("last"))]]

/-- SQL template of the trend_current intent (verbatim from the source). -/
def trend_current_template : List Char :=
  strToChars ("\n                        SELECT s.Nrnum, s.Date, s.TheTrendD, s.Price, s.UpsDowns,\n                               n.HebName, n.EngName\n                        FROM stock_data s\n                        LEFT JOIN name_index n ON s.Nrnum = n.Nrnum\n                        WHERE s.Nrnum = \x7bsymbol\x7d\n                        ORDER BY s.Date DESC\n                        LIMIT 1\n                    ")

/-- SQL template of the trend_change intent (verbatim from the source). -/
def trend_change_template : List Char :=
  strToChars ("\n                        SELECT s1.Nrnum, s1.Date, s1.TheTrendD as from_trend, \n                               s2.TheTrendD as to_trend, s1.Price, s1.UpsDowns,\n                               n.HebName, n.EngName\n                        FROM stock_data s1\n                        JOIN stock_data s2 ON s1.Nrnum = s2.Nrnum \n                            AND s1.Date < s2.Date\n                        LEFT JOIN name_index n ON s1.Nrnum = n.Nrnum\n                        WHERE s1.Nrnum = \x7bsymbol\x7d\n                            AND s1.TheTrendD = 1 AND s2.TheTrendD = 2\n                        ORDER BY s1.Date DESC\n                        LIMIT 10\n                    ")

/-- SQL template of the trend_history intent (verbatim from the source). -/
def trend_history_template : List Char :=
  strToChars ("\n                        SELECT s.Nrnum, s.Date, s.TheTrendD, s.Price, s.UpsDowns,\n                               n.HebName, n.EngName\n                        FROM stock_data s\n                        LEFT JOIN name_index n ON s.Nrnum = n.Nrnum\n                        WHERE s.Nrnum = \x7bsymbol\x7d\n                        ORDER BY s.Date DESC\n                        LIMIT \x7bdays\x7d\n                    ")

/-- Per-request classification context.  The source's context dictionary also
records the matched pattern text and its captured groups, but no downstream
code reads them; only `sql_template` is consumed (by generate_contextual_sql),
so only it is modelled.  The "general" intent gets the empty context. -/
structure QueryContext where
  sql_template : List Char := []
deriving DecidableEq

/-- Embedding of classify_question_type: lower-case the question, scan the
intents in declared dictionary order (trend_current, trend_change,
trend_history), each intent scanning its patterns in declared order, and
return the first intent with a matching pattern together with its template;
otherwise the sentinel "general" with an empty context. -/
def classify_question_type (question : List Char) : List Char × QueryContext :=
  let ql := charsLower question
  if trend_current_patterns.any (fun p => searchToks p ql) then
    (strToChars ("trend_current"), { sql_template := trend_current_template })
  else if trend_change_patterns.any (fun p => searchToks p ql) then
    (strToChars ("trend_change"), { sql_template := trend_change_template })
  else if trend_history_patterns.any (fun p => searchToks p ql) then
    (strToChars ("trend_history"), { sql_template := trend_history_template })
  else (strToChars ("general"), {})

/-- Substitute the symbol placeholder, modelling str.format(symbol=...). -/
def formatSymbol (tpl sym : List Char) : List Char :=
  replaceAll (strToChars ("\x7bsymbol\x7d")) sym tpl

/-- Substitute symbol and days placeholders, modelling
str.format(symbol=..., days=...). -/
def formatSymbolDays (tpl sym : List Char) (days : Nat) : List Char :=
  replaceAll (strToChars ("\x7bdays\x7d")) (natChars days) (formatSymbol tpl sym)

/-- Embedding of generate_contextual_sql (lines 280-304): for the three known
intents, extract the symbol from the question and instantiate the context's
template (for trend_history additionally the extracted day count); whenever no
symbol is found, and for any other intent, fall through to `return None`. -/
def generate_contextual_sql (question question_type : List Char)
    (context : QueryContext) : Option (List Char) :=
  if question_type = strToChars ("trend_current") then
    match extract_symbol_from_question question with
    | some sym => some (formatSymbol context.sql_template sym)
    | none => none
  else if question_type = strToChars ("trend_change") then
    match extract_symbol_from_question question with
    | some sym => some (formatSymbol context.sql_template sym)
    | none => none
  else if question_type = strToChars ("trend_history") then
    let days := extractDayCount question
    match extract_symbol_from_question question with
    | some sym => some (formatSymbolDays context.sql_template sym days)
    | none => none
  else none

set_option maxRecDepth 100000
set_option maxHeartbeats 1000000

/-!
Field Catalog — semantic_mapping_service.FieldDefinition (lines 20-34) and
_initialize_field_definitions (lines 43-171).
-/

/-- Embedding of the FieldType enumeration. -/
inductive FieldType where
  | trend
  | price
  | volume
  | symbol
  | date
  | indicator
  | grade
  | name
deriving DecidableEq

/-- Embedding of the FieldDefinition dataclass.  The enumerated-value mapping
is an insertion-ordered association list, like the source's dict. -/
structure FieldDefinition where
  field_name : List Char
  field_type : FieldType
  description : List Char
  possible_values : Option (List (List Char × List Char)) := none
  unit : Option (List Char) := none
  table : Option (List Char) := none
deriving DecidableEq

/-- Embedding of FieldDefinition.get_value_description: the mapped meaning
when the value-meaning dict is truthy (non-empty) and contains the value's
text form, otherwise the value's text form unchanged. -/
def FieldDefinition.get_value_description (fd : FieldDefinition)
    (value : List Char) : List Char :=
  match fd.possible_values with
  | some pv => if pv.isEmpty then value else (lookupAssoc pv value).getD value
  | none => value

/-- The shared trend value-meaning table of TheTrendD/TheTrendW/TheTrendM. -/
def trendValueMeanings : List (List Char × List Char) :=
  [(strToChars ("0"), strToChars ("sideways (no clear trend)")),
   (strToChars ("1"), strToChars ("uptrend (long position)")),
   (strToChars ("2"), strToChars ("downtrend (short position)"))]

/-- The catalog entry for TheTrendD (named because interpret_trend_value and
the C10 comparison single it out). -/
def theTrendD_definition : FieldDefinition :=
  { field_name := strToChars ("TheTrendD")
    field_type := FieldType.trend
    description := strToChars ("Daily trend indicator")
    possible_values := some trendValueMeanings
    table := some (strToChars ("stock_data")) }

/-- Embedding of _initialize_field_definitions: the full insertion-ordered
catalog. -/
def field_definitions : List (List Char × FieldDefinition) :=
  [(strToChars ("TheTrendD"), theTrendD_definition),
   (strToChars ("TheTrendW"),
    { field_name := strToChars ("TheTrendW")
      field_type := FieldType.trend
      description := strToChars ("Weekly trend indicator")
      possible_values := some trendValueMeanings
      table := some (strToChars ("stock_data")) }),
   (strToChars ("TheTrendM"),
    { field_name := strToChars ("TheTrendM")
      field_type := FieldType.trend
      description := strToChars ("Monthly trend indicator")
      possible_values := some trendValueMeanings
      table := some (strToChars ("stock_data")) }),
   (strToChars ("Price"),
    { field_name := strToChars ("Price")
      field_type := FieldType.price
      description := strToChars ("Stock price")
      unit := some (strToChars ("currency"))
      table := some (strToChars ("stock_data")) }),
   (strToChars ("UpsDowns"),
    { field_name := strToChars ("UpsDowns")
      field_type := FieldType.volume
      description := strToChars ("Trading volume/activity")
      unit := some (strToChars ("shares"))
      table := some (strToChars ("stock_data")) }),
   (strToChars ("UpsDownsD"),
    { field_name := strToChars ("UpsDownsD")
      field_type := FieldType.volume
      description := strToChars ("Daily trading volume")
      unit := some (strToChars ("shares"))
      table := some (strToChars ("stock_data")) }),
   (strToChars ("Nrnum"),
    { field_name := strToChars ("Nrnum")
      field_type := FieldType.symbol
      description := strToChars ("Stock identifier/symbol")
      table := some (strToChars ("stock_data")) }),
   (strToChars ("HebName"),
    { field_name := strToChars ("HebName")
      field_type := FieldType.name
      description := strToChars ("Stock name in Hebrew")
      table := some (strToChars ("name_index")) }),
   (strToChars ("EngName"),
    { field_name := strToChars ("EngName")
      field_type := FieldType.name
      description := strToChars ("Stock name in English")
      table := some (strToChars ("name_index")) }),
   (strToChars ("Date"),
    { field_name := strToChars ("Date")
      field_type := FieldType.date
      description := strToChars ("Trading date")
      table := some (strToChars ("stock_data")) }),
   (strToChars ("MainSug"),
    { field_name := strToChars ("MainSug")
      field_type := FieldType.indicator
      description := strToChars ("Main suggestion/indicator")
      table := some (strToChars ("stock_data")) }),
   (strToChars ("SubSug"),
    { field_name := strToChars ("SubSug")
      field_type := FieldType.indicator
      description := strToChars ("Sub suggestion/indicator")
      table := some (strToChars ("stock_data")) }),
   (strToChars ("Index"),
    { field_name := strToChars ("Index")
      field_type := FieldType.indicator
      description := strToChars ("Market index value")
      table := some (strToChars ("stock_data")) }),
   (strToChars ("FinalGradeD"),
    { field_name := strToChars ("FinalGradeD")
      field_type := FieldType.grade
      description := strToChars ("Final daily grade/rating")
      table := some (strToChars ("stock_data")) }),
   (strToChars ("FinalGradeW"),
    { field_name := strToChars ("FinalGradeW")
      field_type := FieldType.grade
      description := strToChars ("Final weekly grade/rating")
      table := some (strToChars ("stock_data")) }),
   (strToChars ("FinalGradeM"),
    { field_name := strToChars ("FinalGradeM")
      field_type := FieldType.grade
      description := strToChars ("Final monthly grade/rating")
      table := some (strToChars ("stock_data")) })]

/-- Embedding of interpret_trend_value (lines 306-311): look the TheTrendD
definition up in the catalog; when it exists and its value-meaning dict is
truthy, return the mapped meaning of the value's text form with the fixed
"Unknown trend value" default; otherwise return the value's text form. -/
def interpret_trend_value (value : List Char) : List Char :=
  match lookupAssoc field_definitions (strToChars ("TheTrendD")) with
  | some td =>
    match td.possible_values with
    | some pv =>
      if pv.isEmpty then value
      else (lookupAssoc pv value).getD (strToChars ("Unknown trend value: ") ++ value)
    | none => value
  | none => value

/-!
Response Renderer — semantic_mapping_service.generate_natural_response
(lines 313-359).

A result row is modelled as a record of the fields the renderer reads; each
field is optional, `none` modelling an absent key (dict .get returning None).
Row values are carried in their Python str() form, which is what every
renderer consumer applies to them.
-/

/-- A named-field result row, restricted to the fields the renderer reads. -/
structure Row where
  Nrnum : Option (List Char) := none
  Date : Option (List Char) := none
  TheTrendD : Option (List Char) := none
  Price : Option (List Char) := none
  HebName : Option (List Char) := none
  EngName : Option (List Char) := none
  from_trend : Option (List Char) := none
  to_trend : Option (List Char) := none
deriving DecidableEq

/-- Text form of a possibly-missing value inside an f-string or str() call:
Python renders None as "None". -/
def strOfOpt (o : Option (List Char)) : List Char :=
  match o with
  | some s => s
  | none => strToChars ("None")

/-- Python truthiness-based chaining `a or b` for an optional string: a
missing value and the empty string both fall through to the alternative. -/
def pyOrStr (a : Option (List Char)) (b : List Char) : List Char :=
  match a with
  | some s => if s.isEmpty then b else s
  | none => b

/-- The renderer's stock-name fallback chain:
result.get('EngName') or result.get('HebName') or f"Stock \x7bsymbol\x7d". -/
def stockNameOf (r : Row) (symbol : List Char) : List Char :=
  pyOrStr r.EngName (pyOrStr r.HebName (strToChars ("Stock ") ++ symbol))

/-- Join text fragments with a separator, modelling str.join. -/
def joinWith (sep : List Char) : List (List Char) → List Char
  | [] => []
  | [x] => x
  | x :: y :: t => x ++ sep ++ joinWith sep (y :: t)

/-- The trend_current sentence (lines 318-327), built from row 0. -/
def renderCurrent (r : Row) : List Char :=
  let symbol := r.Nrnum.getD (strToChars ("Unknown"))
  let trend_desc := interpret_trend_value (strOfOpt r.TheTrendD)
  let stock_name := stockNameOf r symbol
  strToChars ("The current trend for ") ++ stock_name ++ strToChars (" (symbol ") ++
    symbol ++ strToChars (") as of ") ++ strOfOpt r.Date ++ strToChars (" is ") ++
    trend_desc ++ strToChars (". The stock price is ") ++ strOfOpt r.Price ++
    strToChars (".")

/-- One "changed from ... to ... on ..." fragment of the trend_change
rendering (lines 334-341). -/
def changeLine (r : Row) : List Char :=
  let symbol := r.Nrnum.getD (strToChars ("Unknown"))
  let stock_name := stockNameOf r symbol
  stock_name ++ strToChars (" changed from ") ++
    interpret_trend_value (strOfOpt r.from_trend) ++ strToChars (" to ") ++
    interpret_trend_value (strOfOpt r.to_trend) ++ strToChars (" on ") ++
    strOfOpt r.Date

/-- The trend_change branch (lines 329-343), including the zero-row check of
line 330 exactly as written in the source (it is unreachable: the renderer
returns the generic no-data message for empty results before dispatching). -/
def renderChange (results : List Row) : List Char :=
  if results.length = 0 then
    strToChars ("No trend changes found for the specified criteria.")
  else
    strToChars ("Found ") ++ natChars results.length ++
      strToChars (" trend changes. Recent changes: ") ++
      joinWith (strToChars ("; ")) ((results.take 5).map changeLine) ++
      strToChars (".")

/-- The interpreted trend label of a row, as accumulated by the
trend_history branch. -/
def row_trend_label (r : Row) : List Char :=
  interpret_trend_value (strOfOpt r.TheTrendD)

/-- One update of the trend_summary dict: bump the count of a label, keeping
insertion order, exactly as `trend_summary[trend] = get(trend, 0) + 1`. -/
def bumpCount : List (List Char × Nat) → List Char → List (List Char × Nat)
  | [], k => [(k, 1)]
  | (k', n) :: t, k =>
    if k' = k then (k', n + 1) :: t else (k', n) :: bumpCount t k

/-- The frequency table of interpreted trend labels built by the
trend_history branch (lines 349-352), as an insertion-ordered assoc list. -/
def trend_summary (results : List Row) : List (List Char × Nat) :=
  results.foldl (fun acc r => bumpCount acc (row_trend_label r)) []

/-- One "{count} days of {label}" phrase of the trend_history summary. -/
def countPhrase (p : List Char × Nat) : List Char :=
  natChars p.2 ++ strToChars (" days of ") ++ p.1

/-- The summary_parts list of the trend_history branch (line 354). -/
def summary_parts (results : List Row) : List (List Char) :=
  (trend_summary results).map countPhrase

/-- The trend_history branch (lines 345-356); `r` is row 0. -/
def renderHistory (r : Row) (results : List Row) : List Char :=
  let symbol := r.Nrnum.getD (strToChars ("Unknown"))
  let stock_name := stockNameOf r symbol
  strToChars ("Trend history for ") ++ stock_name ++ strToChars (" (symbol ") ++
    symbol ++ strToChars ("): ") ++
    joinWith (strToChars (", ")) (summary_parts results) ++ strToChars (".")

/-- Embedding of generate_natural_response: the empty-result guard of lines
315-316 fires before any per-intent dispatch; otherwise dispatch on the
question type, defaulting to the generic count message. -/
def generate_natural_response (question : List Char) (results : List Row)
    (question_type : List Char) : List Char :=
  match results with
  | [] => strToChars ("No data found for your query.")
  | r0 :: _ =>
    if question_type = strToChars ("trend_current") then renderCurrent r0
    else if question_type = strToChars ("trend_change") then renderChange results
    else if question_type = strToChars ("trend_history") then renderHistory r0 results
    else
      strToChars ("Found ") ++ natChars results.length ++
        strToChars (" results for your query.")

/-!
Generative-output sanitization — ai/llm_service.generate_sql_query
(lines 131-153) — and the Resolution Orchestrator —
enhanced_query_processor.EnhancedQueryProcessor (lines 17-130).

The opaque external collaborators are modelled as oracle functions in `Env`:
the raw LLM completion for a question (an Except carrying the error message
of a failed generation), the LLM explanation call, and database execution.
Prompt construction only feeds the opaque LLM and is not modelled.
-/

/-- Code-fence cleanup (lines 134-137): applied to the stripped completion. -/
def cleanFences (s : List Char) : List Char :=
  if (strToChars ("```sql")).isPrefixOf s then
    pyStrip (replaceAll (strToChars ("```")) []
      (replaceAll (strToChars ("```sql")) [] s))
  else if (strToChars ("```")).isPrefixOf s then
    pyStrip (replaceAll (strToChars ("```")) [] s)
  else s

/-- Refusal detection (line 140): any of the three marker substrings. -/
def refusalDetected (s : List Char) : Bool :=
  containsSub s (strToChars ("I\x27m sorry")) ||
  containsSub s (strToChars ("I cannot")) ||
  containsSub s (strToChars ("does not contain"))

/-- The fixed safe no-op replacement query (line 141). -/
def safeFallbackQuery : List Char :=
  strToChars ("SELECT 1 LIMIT 0; -- No valid query could be generated")

/-- Placeholder detection (line 144). -/
def placeholderDetected (s : List Char) : Bool :=
  containsSub s (strToChars ("[Enter")) ||
  containsSub s (strToChars ("[specific")) ||
  containsSub s (strToChars ("[value"))

/-- Placeholder replacement chain (lines 146-149). -/
def replacePlaceholders (s : List Char) : List Char :=
  replaceAll (strToChars ("[Enter value here]")) (strToChars ("1"))
    (replaceAll (strToChars ("[value]")) (strToChars ("1"))
      (replaceAll (strToChars ("[Enter specific value]")) (strToChars ("1"))
        (replaceAll (strToChars ("[Enter Stock Nrnum Here]")) (strToChars ("1")) s)))

/-- Embedding of the sanitization pipeline of generate_sql_query applied to
the raw LLM completion: strip, fence cleanup, refusal replacement,
placeholder replacement, and the final statement-terminator guarantee. -/
def sanitize_sql_output (raw : List Char) : List Char :=
  let s0 := pyStrip raw
  let s1 := cleanFences s0
  let s2 := if refusalDetected s1 then safeFallbackQuery else s1
  let s3 := if placeholderDetected s2 then replacePlaceholders s2 else s2
  if (strToChars (";")).isSuffixOf s3 then s3 else s3 ++ strToChars (";")

/-- Outcome of the external query-execution collaborator
(db.execute_query). -/
inductive ExecResult where
  | success (data : List Row) (row_count : Nat)
  | error (message : List Char)
deriving DecidableEq

/-- The external collaborators of the orchestrator. -/
structure Env where
  llm_generate : List Char → Except (List Char) (List Char)
  llm_explain : List Char → List Row → List Char → List Char
  db_execute : List Char → ExecResult

/-- Embedding of llm_service.generate_sql_query: a failed generation carries
its error message; a successful one carries the sanitized completion. -/
def generate_sql_query (env : Env) (question : List Char) :
    Except (List Char) (List Char) :=
  match env.llm_generate question with
  | Except.error m => Except.error m
  | Except.ok content => Except.ok (sanitize_sql_output content)

/-- Embedding of the QueryResponse schema (models/schemas.py), restricted to
the fields the processor sets. -/
structure QueryResponse where
  status : List Char
  question : List Char
  sql_query : Option (List Char) := none
  results : Option (List Row) := none
  explanation : Option (List Char) := none
  row_count : Option Nat := none
  error_message : Option (List Char) := none
  query_type : Option (List Char) := none
deriving DecidableEq

/-- The LIMIT-appending step of _process_llm_query (lines 93-95): append
" LIMIT {limit}" when the upper-cased query does not contain "LIMIT". -/
def addLimitIfMissing (sql : List Char) (limit : Nat) : List Char :=
  if containsSub (charsUpper sql) (strToChars ("LIMIT")) then sql
  else sql ++ strToChars (" LIMIT ") ++ natChars limit

/-- Embedding of _process_llm_query (lines 78-130). -/
def process_llm_query (env : Env) (question : List Char) (limit : Nat) :
    QueryResponse :=
  match generate_sql_query env question with
  | Except.error m =>
    { status := strToChars ("error"), question := question,
      error_message := some (strToChars ("Failed to generate SQL query: ") ++ m) }
  | Except.ok sql0 =>
    let sql := addLimitIfMissing sql0 limit
    match env.db_execute sql with
    | ExecResult.error m =>
      { status := strToChars ("error"), question := question,
        sql_query := some sql,
        error_message := some (strToChars ("Query execution failed: ") ++ m) }
    | ExecResult.success data n =>
      { status := strToChars ("success"), question := question,
        sql_query := some sql, results := some data,
        explanation := some (env.llm_explain question data sql),
        row_count := some n,
        query_type := some (strToChars ("llm_generated")) }

/-- Embedding of _process_semantic_query (lines 40-76): `none` models every
declined outcome (no synthesized query, execution error, or a caught
exception), which the source logs and converts to None. -/
def process_semantic_query (env : Env) (question question_type : List Char)
    (context : QueryContext) : Option QueryResponse :=
  match generate_contextual_sql question question_type context with
  | none => none
  | some sql =>
    match env.db_execute sql with
    | ExecResult.error _ => none
    | ExecResult.success data n =>
      some { status := strToChars ("success"), question := question,
             sql_query := some sql, results := some data,
             explanation := some (generate_natural_response question data question_type),
             row_count := some n,
             query_type := some (strToChars ("semantic_") ++ question_type) }

/-- Embedding of process_question (lines 17-38): classify, attempt the
template path for a known intent, and fall through to the generative path
when the template path declines. -/
def process_question (env : Env) (question : List Char) (limit : Nat) :
    QueryResponse :=
  let qc := classify_question_type question
  if qc.1 ≠ strToChars ("general") then
    match process_semantic_query env question qc.1 qc.2 with
    | some r => r
    | none => process_llm_query env question limit
  else process_llm_query env question limit

/-!
Claims.
-/

/-- C7: for every intent (the general intent included), rendering an empty
row sequence returns the one fixed "no data found" message; the result does
not depend on the intent. -/
theorem render_empty_rows_fixed_message (question question_type : List Char) :
    generate_natural_response question [] question_type =
      strToChars ("No data found for your query.") := rfl

/-- C3 counterexample: for the trend_change intent with zero rows the
renderer returns the generic no-data message, not the specific
"no trend changes found" message (that branch is unreachable). -/
theorem trend_change_empty_rows_counterexample :
    generate_natural_response (strToChars ("q")) [] (strToChars ("trend_change")) =
        strToChars ("No data found for your query.") ∧
    generate_natural_response (strToChars ("q")) [] (strToChars ("trend_change")) ≠
        strToChars ("No trend changes found for the specified criteria.") :=
  ⟨rfl, by decide⟩

/-- C3 amended: for the trend_change intent with a zero-row result set the
renderer reports the generic "no data found" message, because the empty-result
guard fires before the per-intent dispatch; the "no trend changes found"
branch of the source is dead code. -/
theorem trend_change_empty_rows_generic_message (question : List Char) :
    generate_natural_response question [] (strToChars ("trend_change")) =
      strToChars ("No data found for your query.") := rfl

/-- The question of end-to-end scenario 2. -/
def historyQuestion : List Char :=
  strToChars ("Show me the trend history for symbol 230011 over the last 7 days")

/-- C1 counterexample: the scenario-2 question is NOT classified as
trend_history — the trend_current pattern `trend.*symbol\s+(\d+)` is scanned
first and matches — and the day-count extraction does NOT yield 7: the
pattern `(\d+).*days?` captures the first integer of the text, 230011. -/
theorem history_scenario_counterexample :
    (classify_question_type historyQuestion).1 ≠ strToChars ("trend_history") ∧
    (classify_question_type historyQuestion).1 = strToChars ("trend_current") ∧
    extractDayCount historyQuestion ≠ 7 := by decide

/-- C1 amended: the scenario-2 question classifies as trend_current (its
pattern table is scanned first and `trend.*symbol\s+(\d+)` matches), the
symbol 230011 is extracted, and the synthesized query is the current-trend
query capped at 1 row; the day-count extractor, which this path never
consults, would return 230011 (the first integer preceding "days"), not 7. -/
theorem history_scenario_amended :
    (classify_question_type historyQuestion).1 = strToChars ("trend_current") ∧
    extract_symbol_from_question historyQuestion = some (strToChars ("230011")) ∧
    (generate_contextual_sql historyQuestion
        (classify_question_type historyQuestion).1
        (classify_question_type historyQuestion).2).map
      (fun sql => containsSub sql (strToChars ("LIMIT 1"))) = some true ∧
    extractDayCount historyQuestion = 230011 := by decide

/-- C5: for every intent requiring a symbol (trend_current, trend_change,
trend_history) and every question on which symbol extraction returns none,
query synthesis returns none, for any context. -/
theorem synthesize_requires_symbol (question question_type : List Char)
    (context : QueryContext)
    (hqt : question_type = strToChars ("trend_current") ∨
           question_type = strToChars ("trend_change") ∨
           question_type = strToChars ("trend_history"))
    (hsym : extract_symbol_from_question question = none) :
    generate_contextual_sql question question_type context = none := by
  rcases hqt with h | h | h <;> subst h <;>
    simp [generate_contextual_sql, hsym]

/-- C5 witness: a concrete symbol-less question declines synthesis. -/
theorem synthesize_requires_symbol_witness :
    extract_symbol_from_question (strToChars ("what is the trend")) = none ∧
    generate_contextual_sql (strToChars ("what is the trend"))
      (strToChars ("trend_current")) {} = none :=
  ⟨by decide, synthesize_requires_symbol _ _ {} (Or.inl rfl) (by decide)⟩

/-- C2: extract_symbol_from_question applies its three rules in fixed order —
`symbol\s+(\d+)`, then `stock\s+(\d+)`, then a bare run of six or more
digits — and returns the capture of the first satisfied rule; in particular a
keyword match is returned whatever the bare-digit-run rule would produce. -/
theorem extract_symbol_rule_order (question d : List Char) :
    (searchKw (strToChars ("symbol")) question = some d →
       extract_symbol_from_question question = some d) ∧
    (searchKw (strToChars ("symbol")) question = none →
     searchKw (strToChars ("stock")) question = some d →
       extract_symbol_from_question question = some d) ∧
    (searchKw (strToChars ("symbol")) question = none →
     searchKw (strToChars ("stock")) question = none →
       extract_symbol_from_question question = searchDigitRun question) := by
  refine ⟨fun h => ?_, fun h1 h2 => ?_, fun h1 h2 => ?_⟩ <;>
    simp [extract_symbol_from_question, *]

/-- The C2 witness question: a bare 7-digit run occurs before the keyword
form in the text. -/
def keywordAndBareRunQ : List Char :=
  strToChars ("report 1234567 then symbol 99 please")

/-- C2 witness: with both a keyword form and a positionally earlier bare 6+
digit run present, the keyword capture wins. -/
theorem extract_symbol_rule_order_witness :
    searchKw (strToChars ("symbol")) keywordAndBareRunQ = some (strToChars ("99")) ∧
    searchDigitRun keywordAndBareRunQ = some (strToChars ("1234567")) ∧
    extract_symbol_from_question keywordAndBareRunQ = some (strToChars ("99")) :=
  ⟨by decide, by decide,
   (extract_symbol_rule_order keywordAndBareRunQ (strToChars ("99"))).1 (by decide)⟩

/-- C10: for every trend value whose text form is not "0", "1" or "2", the
renderer's trend interpretation returns the "Unknown trend value: v" label,
while the catalog's generic value description returns the raw text unchanged;
on "0", "1", "2" the two functions agree (both return the mapped meaning). -/
theorem interpret_trend_vs_describe (v : List Char) :
    ((v ≠ strToChars ("0") ∧ v ≠ strToChars ("1") ∧ v ≠ strToChars ("2")) →
       interpret_trend_value v = strToChars ("Unknown trend value: ") ++ v ∧
       theTrendD_definition.get_value_description v = v) ∧
    ((v = strToChars ("0") ∨ v = strToChars ("1") ∨ v = strToChars ("2")) →
       interpret_trend_value v = theTrendD_definition.get_value_description v) := by
  constructor
  · rintro ⟨h0, h1, h2⟩
    have h0' : strToChars ("0") ≠ v := fun hh => h0 hh.symm
    have h1' : strToChars ("1") ≠ v := fun hh => h1 hh.symm
    have h2' : strToChars ("2") ≠ v := fun hh => h2 hh.symm
    have hcat : lookupAssoc field_definitions (strToChars ("TheTrendD")) =
        some theTrendD_definition := by decide
    constructor
    · simp [interpret_trend_value, hcat, theTrendD_definition, trendValueMeanings,
        lookupAssoc, h0', h1', h2']
    · simp [FieldDefinition.get_value_description, theTrendD_definition,
        trendValueMeanings, lookupAssoc, h0', h1', h2']
  · rintro (h | h | h) <;> subst h <;> decide

/-- C10 witness: the unmapped value "5" gets the "Unknown trend value" label
from the renderer but passes through the generic description unchanged, and
the mapped value "1" agrees between the two. -/
theorem interpret_trend_vs_describe_witness :
    interpret_trend_value (strToChars ("5")) =
        strToChars ("Unknown trend value: 5") ∧
    theTrendD_definition.get_value_description (strToChars ("5")) =
        strToChars ("5") ∧
    interpret_trend_value (strToChars ("1")) =
        theTrendD_definition.get_value_description (strToChars ("1")) := by
  have h5 := (interpret_trend_vs_describe (strToChars ("5"))).1 (by decide)
  have h1 := (interpret_trend_vs_describe (strToChars ("1"))).2 (Or.inr (Or.inl rfl))
  exact ⟨h5.1.trans (by decide), h5.2, h1⟩

/-- C4: for every question with a known (non-general) intent, whenever
template synthesis declines (returns none) or the execution collaborator
reports an error on the synthesized query, the orchestrator's result is
exactly the generative path's result: the template path is taken once, its
failure is never surfaced, and no error result is produced for that cause. -/
theorem template_failure_falls_back (env : Env) (question : List Char)
    (limit : Nat)
    (hknown : (classify_question_type question).1 ≠ strToChars ("general"))
    (hfail : generate_contextual_sql question (classify_question_type question).1
        (classify_question_type question).2 = none ∨
      ∃ sql m, generate_contextual_sql question (classify_question_type question).1
          (classify_question_type question).2 = some sql ∧
        env.db_execute sql = ExecResult.error m) :
    process_question env question limit = process_llm_query env question limit := by
  have hsem : process_semantic_query env question (classify_question_type question).1
      (classify_question_type question).2 = none := by
    rcases hfail with h | ⟨sql, m, hs, he⟩
    · simp [process_semantic_query, h]
    · simp [process_semantic_query, hs, he]
  simp [process_question, hknown, hsem]

/-- The C4 witness environment: the execution collaborator always fails. -/
def fallbackEnv : Env :=
  { llm_generate := fun _ => Except.ok (strToChars ("SELECT 1;")),
    llm_explain := fun _ _ _ => strToChars ("explained"),
    db_execute := fun _ => ExecResult.error (strToChars ("down")) }

/-- The C4 witness question: classified trend_change, but symbol extraction
fails (123 is shorter than six digits), so synthesis declines. -/
def fallbackQ : List Char := strToChars ("trend change 123")

/-- C4 witness: a known-intent question whose synthesis declines makes the
orchestrator return exactly the generative path's result. -/
theorem template_failure_falls_back_witness :
    (classify_question_type fallbackQ).1 ≠ strToChars ("general") ∧
    generate_contextual_sql fallbackQ (classify_question_type fallbackQ).1
        (classify_question_type fallbackQ).2 = none ∧
    process_question fallbackEnv fallbackQ 100 =
      process_llm_query fallbackEnv fallbackQ 100 :=
  ⟨by decide, by decide,
   template_failure_falls_back fallbackEnv fallbackQ 100 (by decide)
     (Or.inl (by decide))⟩

/-- Sanitized generative output always ends with the statement terminator
(lines 151-153 of the source). -/
theorem sanitize_sql_output_terminated (raw : List Char) :
    (strToChars (";")).isSuffixOf (sanitize_sql_output raw) = true := by
  unfold sanitize_sql_output
  set s3 := (if placeholderDetected
      (if refusalDetected (cleanFences (pyStrip raw)) then safeFallbackQuery
       else cleanFences (pyStrip raw)) then
    replacePlaceholders
      (if refusalDetected (cleanFences (pyStrip raw)) then safeFallbackQuery
       else cleanFences (pyStrip raw))
  else
    if refusalDetected (cleanFences (pyStrip raw)) then safeFallbackQuery
    else cleanFences (pyStrip raw)) with hs3
  by_cases h : (strToChars (";")).isSuffixOf s3
  · simp [h]
  · simp only [h, if_false, Bool.false_eq_true, if_neg]
    simp [List.isSuffixOf_iff_suffix]

/-- C9: on the generative path, when the sanitized query does not contain
"LIMIT" in any letter case, the string handed to the execution collaborator
is exactly the sanitized query with " LIMIT {limit}" appended — after the
terminating semicolon the sanitizer guaranteed, hence outside the terminated
statement — and when "LIMIT" is present the query is executed unchanged. -/
theorem llm_limit_append (env : Env) (question raw : List Char) (limit : Nat)
    (hgen : env.llm_generate question = Except.ok raw) :
    (containsSub (charsUpper (sanitize_sql_output raw)) (strToChars ("LIMIT")) = false →
       addLimitIfMissing (sanitize_sql_output raw) limit =
         sanitize_sql_output raw ++ strToChars (" LIMIT ") ++ natChars limit ∧
       (strToChars (";")).isSuffixOf (sanitize_sql_output raw) = true) ∧
    (containsSub (charsUpper (sanitize_sql_output raw)) (strToChars ("LIMIT")) = true →
       addLimitIfMissing (sanitize_sql_output raw) limit = sanitize_sql_output raw) ∧
    (process_llm_query env question limit).sql_query =
      some (addLimitIfMissing (sanitize_sql_output raw) limit) := by
  refine ⟨fun h => ⟨?_, sanitize_sql_output_terminated raw⟩, fun h => ?_, ?_⟩
  · simp [addLimitIfMissing, h]
  · simp [addLimitIfMissing, h]
  · simp only [process_llm_query, generate_sql_query, hgen]
    cases h : env.db_execute (addLimitIfMissing (sanitize_sql_output raw) limit) <;>
      simp [h]

/-- The C9 witness environment: a fixed completion without a LIMIT clause. -/
def limitEnv : Env :=
  { llm_generate := fun _ => Except.ok (strToChars ("SELECT 2")),
    llm_explain := fun _ _ _ => strToChars ("explained"),
    db_execute := fun _ => ExecResult.success [] 0 }

/-- C9 witness: the sanitized completion "SELECT 2;" has no LIMIT clause, so
the executed string is "SELECT 2; LIMIT 5" — the clause lands after the
terminating semicolon. -/
theorem llm_limit_append_witness :
    (process_llm_query limitEnv (strToChars ("hello")) 5).sql_query =
      some (strToChars ("SELECT 2; LIMIT 5")) := by
  have h := llm_limit_append limitEnv (strToChars ("hello"))
    (strToChars ("SELECT 2")) 5 rfl
  rw [h.2.2]
  decide

/-- C8: whenever the (stripped, fence-cleaned) generative output contains
refusal language, sanitization replaces the whole output with the fixed safe
no-op query (plus the appended statement terminator), the sanitized output
ends with the terminator, and the string handed to the execution collaborator
is exactly that replacement. -/
theorem refusal_replaced_with_safe_query (env : Env) (question raw : List Char)
    (limit : Nat)
    (hgen : env.llm_generate question = Except.ok raw)
    (href : refusalDetected (cleanFences (pyStrip raw)) = true) :
    sanitize_sql_output raw = safeFallbackQuery ++ strToChars (";") ∧
    (strToChars (";")).isSuffixOf (sanitize_sql_output raw) = true ∧
    (process_llm_query env question limit).sql_query =
      some (safeFallbackQuery ++ strToChars (";")) := by
  have hs : sanitize_sql_output raw = safeFallbackQuery ++ strToChars (";") := by
    simp only [sanitize_sql_output, href, if_true]
    decide
  have hal : addLimitIfMissing (safeFallbackQuery ++ strToChars (";")) limit =
      safeFallbackQuery ++ strToChars (";") := by
    have hc : containsSub (charsUpper (safeFallbackQuery ++ strToChars (";")))
        (strToChars ("LIMIT")) = true := by decide
    simp [addLimitIfMissing, hc]
  refine ⟨hs, sanitize_sql_output_terminated raw, ?_⟩
  simp only [process_llm_query, generate_sql_query, hgen, hs, hal]
  cases h : env.db_execute (safeFallbackQuery ++ strToChars (";")) <;> simp [h]

/-- The C8 witness environment: the generative collaborator refuses. -/
def refusalEnv : Env :=
  { llm_generate := fun _ => Except.ok (strToChars ("I\x27m sorry, I cannot help")),
    llm_explain := fun _ _ _ => strToChars ("explained"),
    db_execute := fun _ => ExecResult.success [] 0 }

/-- C8 witness: the refusal "I'm sorry, I cannot help" is replaced by the
fixed safe no-op query before execution, with the terminator appended. -/
theorem refusal_replaced_witness :
    sanitize_sql_output (strToChars ("I\x27m sorry, I cannot help")) =
        strToChars ("SELECT 1 LIMIT 0; -- No valid query could be generated;") ∧
    (process_llm_query refusalEnv (strToChars ("anything")) 100).sql_query =
      some (strToChars ("SELECT 1 LIMIT 0; -- No valid query could be generated;")) := by
  have h := refusal_replaced_with_safe_query refusalEnv (strToChars ("anything"))
    (strToChars ("I\x27m sorry, I cannot help")) 100 rfl (by decide)
  exact ⟨h.1.trans (by decide), h.2.2.trans (by decide)⟩

/-!
Counting lemmas for the trend_history frequency table (claim C6).
-/

/-- The count a label holds in the summary table (0 when absent). -/
def countOf (l : List (List Char × Nat)) (k : List Char) : Nat :=
  (lookupAssoc l k).getD 0

/-- The total of all counts in the summary table. -/
def sumCounts (l : List (List Char × Nat)) : Nat := (l.map Prod.snd).sum

/-- The label column of the summary table. -/
def summaryKeys (l : List (List Char × Nat)) : List (List Char) := l.map Prod.fst

theorem countOf_bumpCount (acc : List (List Char × Nat)) (k j : List Char) :
    countOf (bumpCount acc k) j = countOf acc j + (if k = j then 1 else 0) := by
  induction acc with
  | nil => by_cases h : k = j <;> simp [bumpCount, countOf, lookupAssoc, h]
  | cons p t ih =>
    obtain ⟨a, n⟩ := p
    by_cases h1 : a = k
    · subst h1
      by_cases h2 : a = j <;> simp [bumpCount, countOf, lookupAssoc, h2]
    · by_cases h2 : a = j
      · have hkj : ¬ k = j := fun hh => h1 (h2.trans hh.symm)
        have hjk : ¬ j = k := fun hh => hkj hh.symm
        simp [bumpCount, countOf, lookupAssoc, h1, h2, hkj, hjk]
      · simp [bumpCount, countOf, lookupAssoc, h1, h2] at ih ⊢
        exact ih

theorem sumCounts_bumpCount (acc : List (List Char × Nat)) (k : List Char) :
    sumCounts (bumpCount acc k) = sumCounts acc + 1 := by
  induction acc with
  | nil => simp [bumpCount, sumCounts]
  | cons p t ih =>
    obtain ⟨a, n⟩ := p
    by_cases h : a = k <;> simp [bumpCount, sumCounts, h] at ih ⊢ <;> omega

theorem summaryKeys_bumpCount (acc : List (List Char × Nat)) (k : List Char) :
    summaryKeys (bumpCount acc k) =
      if k ∈ summaryKeys acc then summaryKeys acc else summaryKeys acc ++ [k] := by
  induction acc with
  | nil => simp [bumpCount, summaryKeys]
  | cons p t ih =>
    obtain ⟨a, n⟩ := p
    by_cases h : a = k
    · subst h; simp [bumpCount, summaryKeys]
    · have hka : k ≠ a := fun hh => h hh.symm
      simp only [bumpCount, summaryKeys, List.map_cons, h, if_false] at ih ⊢
      rw [ih]
      by_cases hm : k ∈ List.map Prod.fst t
      · simp [hm, hka]
      · simp [hm, hka]

theorem summaryKeys_bumpCount_nodup (acc : List (List Char × Nat)) (k : List Char)
    (h : (summaryKeys acc).Nodup) : (summaryKeys (bumpCount acc k)).Nodup := by
  rw [summaryKeys_bumpCount]
  by_cases hm : k ∈ summaryKeys acc
  · simp [hm, h]
  · simp [hm, List.nodup_append, h]

theorem mem_summaryKeys_bumpCount (acc : List (List Char × Nat)) (k j : List Char) :
    j ∈ summaryKeys (bumpCount acc k) ↔ j ∈ summaryKeys acc ∨ j = k := by
  rw [summaryKeys_bumpCount]
  by_cases hm : k ∈ summaryKeys acc
  · simp only [hm, if_true]
    constructor
    · exact Or.inl
    · rintro (h | rfl)
      · exact h
      · exact hm
  · simp [hm]

theorem countOf_foldl (ls : List (List Char)) (acc : List (List Char × Nat))
    (j : List Char) :
    countOf (ls.foldl bumpCount acc) j = countOf acc j + ls.count j := by
  induction ls generalizing acc with
  | nil => simp
  | cons l t ih =>
    rw [List.foldl_cons, ih, countOf_bumpCount, List.count_cons]
    by_cases h : l = j <;> simp [h] <;> omega

theorem sumCounts_foldl (ls : List (List Char)) (acc : List (List Char × Nat)) :
    sumCounts (ls.foldl bumpCount acc) = sumCounts acc + ls.length := by
  induction ls generalizing acc with
  | nil => simp
  | cons l t ih =>
    rw [List.foldl_cons, ih, sumCounts_bumpCount]
    simp only [List.length_cons]
    omega

theorem summaryKeys_foldl_nodup (ls : List (List Char))
    (acc : List (List Char × Nat)) (h : (summaryKeys acc).Nodup) :
    (summaryKeys (ls.foldl bumpCount acc)).Nodup := by
  induction ls generalizing acc with
  | nil => exact h
  | cons l t ih => exact ih _ (summaryKeys_bumpCount_nodup _ _ h)

theorem mem_summaryKeys_foldl (ls : List (List Char))
    (acc : List (List Char × Nat)) (j : List Char) :
    j ∈ summaryKeys (ls.foldl bumpCount acc) ↔ j ∈ summaryKeys acc ∨ j ∈ ls := by
  induction ls generalizing acc with
  | nil => simp
  | cons l t ih =>
    rw [List.foldl_cons, ih, mem_summaryKeys_bumpCount]
    simp
    tauto

theorem trend_summary_eq_foldl (results : List Row) :
    trend_summary results = (results.map row_trend_label).foldl bumpCount [] := by
  rw [trend_summary, List.foldl_map]

theorem count_eq_of_perm (j : List Char) (l₁ l₂ : List (List Char))
    (h : l₁.Perm l₂) : l₁.count j = l₂.count j := by
  induction h with
  | nil => rfl
  | cons x _ ih => simp [List.count_cons, ih]
  | swap x y t => simp only [List.count_cons]; omega
  | trans _ _ ih1 ih2 => exact ih1.trans ih2

/-- C6: for every non-empty row sequence rendered under trend_history, the
frequency table of interpreted trend labels has one count phrase per distinct
label (the label column is duplicate-free and its members are exactly the
interpreted labels of the rows), the counts sum to the number of rows, and
any permutation of the rows yields the same count for every label. -/
theorem trend_history_summary_invariant (rows rows' : List Row) (l : List Char)
    (hne : rows ≠ []) (hperm : rows.Perm rows') :
    (summary_parts rows).length = (trend_summary rows).length ∧
    (summaryKeys (trend_summary rows)).Nodup ∧
    (l ∈ summaryKeys (trend_summary rows) ↔ l ∈ rows.map row_trend_label) ∧
    sumCounts (trend_summary rows) = rows.length ∧
    countOf (trend_summary rows) l = countOf (trend_summary rows') l := by
  refine ⟨by simp [summary_parts], ?_, ?_, ?_, ?_⟩
  · rw [trend_summary_eq_foldl]
    exact summaryKeys_foldl_nodup _ _ (by simp [summaryKeys])
  · rw [trend_summary_eq_foldl, mem_summaryKeys_foldl]
    simp [summaryKeys]
  · rw [trend_summary_eq_foldl, sumCounts_foldl]
    simp [sumCounts]
  · rw [trend_summary_eq_foldl, trend_summary_eq_foldl, countOf_foldl, countOf_foldl]
    have hcount := count_eq_of_perm l _ _ (hperm.map row_trend_label)
    omega

/-- A C6 witness row in uptrend. -/
def rowUp : Row := { TheTrendD := some (strToChars ("1")) }

/-- A C6 witness row in downtrend. -/
def rowDown : Row := { TheTrendD := some (strToChars ("2")) }

/-- C6 witness: on the two-row history [up, down] and its swapped permutation
the counts agree and sum to the number of rows. -/
theorem trend_history_summary_invariant_witness :
    ([rowUp, rowDown] : List Row) ≠ [] ∧
    sumCounts (trend_summary [rowUp, rowDown]) = 2 ∧
    countOf (trend_summary [rowUp, rowDown]) (strToChars ("uptrend (long position)")) =
      countOf (trend_summary [rowDown, rowUp]) (strToChars ("uptrend (long position)")) := by
  have h := trend_history_summary_invariant [rowUp, rowDown] [rowDown, rowUp]
    (strToChars ("uptrend (long position)")) (by decide)
    (List.Perm.swap rowDown rowUp [])
  exact ⟨by decide, h.2.2.2.1.trans (by decide), h.2.2.2.2⟩
